import Mathlib

/-
  Verification of the tradingview_binance_trailing bot core against its
  natural-language specification.

  The development shallowly embeds the relevant code of src/app.py,
  src/trade_notifier.py and src/config.py over exact rational arithmetic:
  pure computations become Lean functions on the rationals, one iteration of a
  monitoring loop becomes a step function on an explicit trade-state record,
  exchange data fetched over the network (mark price, position, PnL percent,
  symbol filters, order acceptance) becomes explicit parameters of each step,
  and a run of the loop is a fold of the step over a list of ticks.
-/

namespace TVB

/-- Python round-half-to-even on a rational number (the built-in round with
no digit argument, as applied by the code to exact values). -/
def pyRound (x : ℚ) : ℤ :=
  if x - ⌊x⌋ < 1/2 then ⌊x⌋
  else if 1/2 < x - ⌊x⌋ then ⌊x⌋ + 1
  else if ⌊x⌋ % 2 = 0 then ⌊x⌋ else ⌊x⌋ + 1

/-- Python round(x, n) for a nonnegative digit count n. -/
def pyRoundDigits (x : ℚ) (n : ℕ) : ℚ :=
  (pyRound (x * 10 ^ n) : ℚ) / 10 ^ n

/-- Embeds trade_notifier.round_to_tick (trade_notifier.py lines 83-88):
rounding to the nearest tick followed by Python round(value, 8); a
nonpositive tick takes the guard branch and only rounds to 8 digits. -/
def round_to_tick (tick value : ℚ) : ℚ :=
  if tick ≤ 0 then pyRoundDigits value 8
  else pyRoundDigits ((pyRound (value / tick) : ℚ) * tick) 8

/-- Trade side as carried in the shared trades dict ("BUY" or "SELL"). -/
inductive Side
  | BUY
  | SELL
deriving DecidableEq

/-- The configuration values read from config.py and the environment that the
monitored code paths depend on. -/
structure Config where
  LEVERAGE : ℚ
  STOP_LOSS_PCT : ℚ
  LOSS_BARS_LIMIT : ℕ
  MAX_ACTIVE_TRADES : ℕ
  TRAILING_ACTIVATION_PCT : ℚ
  TRAILING_DISTANCE_PCT : ℚ
  TSI_PRIMARY_TRIGGER_PCT : ℚ
  TSI_LOW_PROFIT_OFFSET_PCT : ℚ
  TSI_HIGH_PROFIT_OFFSET_PCT : ℚ
  TRADE_AMOUNT : ℚ
deriving DecidableEq

/-- Offset interpolation of trade_notifier.compute_ts_dynamic
(trade_notifier.py lines 214-221): low offset at or below the primary
trigger, high offset at or above 10 percent profit, linear in between. -/
def tn_offset (cfg : Config) (profit : ℚ) : ℚ :=
  if profit ≤ cfg.TSI_PRIMARY_TRIGGER_PCT then cfg.TSI_LOW_PROFIT_OFFSET_PCT
  else if 10 ≤ profit then cfg.TSI_HIGH_PROFIT_OFFSET_PCT
  else cfg.TSI_LOW_PROFIT_OFFSET_PCT +
    ((profit - cfg.TSI_PRIMARY_TRIGGER_PCT) / (10 - cfg.TSI_PRIMARY_TRIGGER_PCT)) *
    (cfg.TSI_HIGH_PROFIT_OFFSET_PCT - cfg.TSI_LOW_PROFIT_OFFSET_PCT)

/-- The candidate stop of trade_notifier.compute_ts_dynamic after the
breakeven clamp and before the final tick rounding (trade_notifier.py
lines 222-224). -/
def tn_stop_before_round (offset entry current : ℚ) : Side → ℚ
  | Side.BUY => max (current * (1 - offset / 100)) entry
  | Side.SELL => min (current * (1 + offset / 100)) entry

/-- Embeds trade_notifier.compute_ts_dynamic (trade_notifier.py lines
209-225). The live leveraged PnL percent fetched inside the function from
the exchange is passed in as the pnl argument (none when the exchange
reports no position); the tick size for the final rounding is the tick
argument. Returns the tick-rounded stop and the 4-digit-rounded offset. -/
def compute_ts_dynamic (cfg : Config) (tick : ℚ) (pnl : Option ℚ)
    (entry_price : ℚ) (side : Side) (current_price : ℚ) : Option (ℚ × ℚ) :=
  match pnl with
  | none => none
  | some p =>
    if |p| < cfg.TSI_PRIMARY_TRIGGER_PCT then none
    else
      some (round_to_tick tick (tn_stop_before_round (tn_offset cfg |p|) entry_price current_price side),
            pyRoundDigits (tn_offset cfg |p|) 4)

/-- One entry of the notifier trades dict as created by log_trade_entry
(trade_notifier.py lines 148-152) and mutated by check_trailing. -/
structure NotifierTrade where
  side : Side
  entry_price : ℚ
  trail_active : Bool
  stop_price : Option ℚ
  dynamic_offset : Option ℚ
  closed : Bool
deriving DecidableEq

/-- Telegram-visible events of one check_trailing iteration. -/
inductive NEvent
  | trailingActivated (pnl : ℚ)
  | stopHit (stop : ℚ) (offset : ℚ)
deriving DecidableEq

/-- One iteration of the while loop of trade_notifier.check_trailing
(trade_notifier.py lines 233-296) for a trade whose position exists on the
exchange. The mark price read from the position and the live PnL percent are
the mark and pnl arguments; the second PnL fetch performed inside
compute_ts_dynamic is modelled as returning the same value within the tick.
A stop hit runs close_trade_on_binance and log_trade_exit, which marks the
trade closed. -/
def check_trailing_step (cfg : Config) (tick : ℚ) (t : NotifierTrade)
    (mark : ℚ) (pnl : Option ℚ) : NotifierTrade × List NEvent :=
  if t.closed then (t, []) else
  match pnl with
  | none => (t, [])
  | some p =>
    let act := if t.trail_active = false ∧ cfg.TRAILING_ACTIVATION_PCT ≤ p then
        ({t with trail_active := true}, [NEvent.trailingActivated p])
      else (t, [])
    if act.1.trail_active = false then act
    else
      match compute_ts_dynamic cfg tick (some p) act.1.entry_price act.1.side mark with
      | none => act
      | some (stop, offset) =>
        let t2 := {act.1 with stop_price := some stop, dynamic_offset := some offset}
        match t2.side with
        | Side.BUY =>
          if mark ≤ stop - max (2 * tick) tick then
            ({t2 with closed := true}, act.2 ++ [NEvent.stopHit stop offset])
          else (t2, act.2)
        | Side.SELL =>
          if stop + max (2 * tick) tick ≤ mark then
            ({t2 with closed := true}, act.2 ++ [NEvent.stopHit stop offset])
          else (t2, act.2)

/-- Repeated check_trailing iterations over a list of (mark, pnl) ticks. -/
def check_trailing_run (cfg : Config) (tick : ℚ) (t : NotifierTrade)
    (ticks : List (ℚ × Option ℚ)) : NotifierTrade :=
  ticks.foldl (fun s mk => (check_trailing_step cfg tick s mk.1 mk.2).1) t

/-- Embeds the _to_percent normalizer nested in app.compute_ts_dynamic
(app.py lines 387-395): values below 1 in absolute value are taken to be
decimal fractions and scaled to percent units. -/
def to_percent (p : ℚ) : ℚ :=
  if |p| < 1 then p * 100 else p

/-- Raw unleveraged profit percent as computed in app.compute_ts_dynamic
(app.py lines 412-415). -/
def app_profit_pct (entry current : ℚ) : Side → ℚ
  | Side.BUY => |(current - entry) / entry| * 100
  | Side.SELL => |(entry - current) / entry| * 100

/-- Slope-based dynamic offset of app.compute_ts_dynamic (app.py lines
422-432): clamped below at the low offset, falling back to the normalized
trail percent when nonpositive; not clamped above. -/
def app_dynamic_pct (cfg : Config) (trail_norm profit : ℚ) : ℚ :=
  let ts_low := to_percent cfg.TSI_LOW_PROFIT_OFFSET_PCT
  let ts_high := to_percent cfg.TSI_HIGH_PROFIT_OFFSET_PCT
  let d := (ts_high - ts_low) / (19/2) * (profit - 1/2) + ts_low
  let d2 := if d < ts_low then ts_low else d
  if d2 ≤ 0 then trail_norm else d2

/-- Embeds app.compute_ts_dynamic (app.py lines 360-444): guards, percent
normalization, slope-based offset and the stop price rounded to 8 digits.
Unlike the notifier variant there is no breakeven clamp and no tick
rounding. -/
def app_compute_ts_dynamic (cfg : Config) (entry_price : ℚ) (side : Side)
    (current_price : ℚ) (activation_pct trail_pct : ℚ) : Option ℚ :=
  if entry_price ≤ 0 ∨ current_price ≤ 0 then none
  else if app_profit_pct entry_price current_price side < to_percent activation_pct then none
  else
    let d := app_dynamic_pct cfg (to_percent trail_pct) (app_profit_pct entry_price current_price side)
    match side with
    | Side.BUY => some (pyRoundDigits (current_price * (1 - d / 100)) 8)
    | Side.SELL => some (pyRoundDigits (current_price * (1 + d / 100)) 8)

/-- The dynamic_trail sub-dict of an app.py trade (app.py lines 154-161
and the keys added by the global monitor). -/
structure AppDyn where
  active : Bool
  notified : Bool
  activation_pct : ℚ
  peak : Option ℚ
  trough : Option ℚ
  stop_price : Option ℚ
  peak_pnl : Option ℚ
  trough_pnl : Option ℚ
deriving DecidableEq

/-- One entry of the shared trades dict as app.py maintains it. -/
structure AppTrade where
  side : Side
  entry_price : ℚ
  quantity : ℚ
  loss_bars : ℕ
  forced_exit : Bool
  closed : Bool
  dyn : AppDyn
deriving DecidableEq

/-- Externally visible events of one global-monitor iteration for a symbol:
the STOP_LOSS exit log (log_trade_exit), the one-time trailing start log,
the trailing-stop-hit message and calls to execute_market_exit. -/
inductive GEvent
  | stopLossExit (price : ℚ)
  | trailingStarted (pnl : ℚ)
  | trailStopHit (stop : ℚ) (price : ℚ)
  | marketExitCall
deriving DecidableEq

/-- Exchange data read during one monitor iteration: the current price and
the live leveraged PnL percent (none when the exchange reports nothing). -/
structure Tick where
  current_price : ℚ
  pnl : Option ℚ
deriving DecidableEq

/-- Tightening update of the stored stop (app.py lines 677-684 in the
global monitor): accept the candidate only when no stop exists yet or the
candidate is strictly more favorable. -/
def tighten_stop (side : Side) (prev : Option ℚ) (cand : ℚ) : Option ℚ :=
  match side, prev with
  | _, none => some cand
  | Side.BUY, some p => if p < cand then some cand else some p
  | Side.SELL, some p => if cand < p then some cand else some p

/-- Trailing activation block of the global monitor (app.py lines 611-626):
set active, seed the PnL extrema, and log the trailing start once. -/
def activation_block (pnl : ℚ) (d : AppDyn) : AppDyn × List GEvent :=
  if d.active = false ∧ d.activation_pct ≤ |pnl| then
    let d1 := {d with active := true, peak_pnl := some pnl, trough_pnl := some pnl}
    if d1.notified = false then ({d1 with notified := true}, [GEvent.trailingStarted pnl])
    else (d1, [])
  else (d, [])

/-- PnL-extrema update of the global monitor (app.py lines 630-634). -/
def pnl_extrema_block (side : Side) (pnl : ℚ) (d : AppDyn) : AppDyn :=
  match side with
  | Side.BUY => {d with peak_pnl := some (max pnl (d.peak_pnl.getD (-999)))}
  | Side.SELL => {d with trough_pnl := some (min pnl (d.trough_pnl.getD 999))}

/-- Peak/trough maintenance of the global monitor (app.py lines 643-661):
initialize the absent key to the entry price, advance the favorable extreme,
and return the price used for the stop computation. -/
def peak_block (side : Side) (entry current : ℚ) (d : AppDyn) : AppDyn × ℚ :=
  match side with
  | Side.BUY =>
    let pk0 := d.peak.getD entry
    let pk := if pk0 < current then current else pk0
    ({d with peak := some pk, trough := some (d.trough.getD entry)}, pk)
  | Side.SELL =>
    let tr0 := d.trough.getD entry
    let tr := if current < tr0 then current else tr0
    ({d with peak := some (d.peak.getD entry), trough := some tr}, tr)

/-- One per-symbol iteration of app.global_trailing_monitor (app.py lines
568-701, reading the block at lines 636-673 at its intended indentation
inside the active-trailing branch). Exchange reads are the tick argument;
Python treats a None PnL as 0.0 through the `or 0.0` at line 585. The
STOP_LOSS branch runs log_trade_exit, which marks the shared trade closed,
and triggers execute_market_exit. -/
def global_monitor_step (cfg : Config) (t : AppTrade) (tk : Tick) :
    AppTrade × List GEvent :=
  if t.closed then (t, []) else
  if tk.current_price ≤ 0 then (t, []) else
  if (tk.pnl.getD 0) ≤ -cfg.STOP_LOSS_PCT * cfg.LEVERAGE ∧ t.forced_exit = false then
    ({t with forced_exit := true, closed := true},
     [GEvent.stopLossExit tk.current_price, GEvent.marketExitCall])
  else
    let pnl := tk.pnl.getD 0
    let ad := activation_block pnl t.dyn
    if ad.1.active = false then ({t with dyn := ad.1}, ad.2)
    else
      let d2 := pnl_extrema_block t.side pnl ad.1
      let dynamic_offset := cfg.TSI_LOW_PROFIT_OFFSET_PCT +
        (cfg.TSI_HIGH_PROFIT_OFFSET_PCT - cfg.TSI_LOW_PROFIT_OFFSET_PCT) *
        (min (max |pnl| 0) 10 / 10)
      let pb := peak_block t.side t.entry_price tk.current_price d2
      match app_compute_ts_dynamic cfg t.entry_price t.side pb.2
          cfg.TRAILING_ACTIVATION_PCT
          (if 0 < dynamic_offset then dynamic_offset else cfg.TRAILING_DISTANCE_PCT) with
      | none => ({t with dyn := pb.1}, ad.2)
      | some cand =>
        let d5 := {pb.1 with stop_price := tighten_stop t.side pb.1.stop_price cand}
        match d5.stop_price with
        | none => ({t with dyn := d5}, ad.2)
        | some sp =>
          match t.side with
          | Side.BUY =>
            if tk.current_price ≤ sp then
              ({t with dyn := d5},
               ad.2 ++ [GEvent.trailStopHit sp tk.current_price, GEvent.marketExitCall])
            else ({t with dyn := d5}, ad.2)
          | Side.SELL =>
            if sp ≤ tk.current_price then
              ({t with dyn := d5},
               ad.2 ++ [GEvent.trailStopHit sp tk.current_price, GEvent.marketExitCall])
            else ({t with dyn := d5}, ad.2)

/-- Repeated global-monitor iterations for one symbol over a tick list. -/
def global_monitor_run (cfg : Config) (t : AppTrade) (ticks : List Tick) : AppTrade :=
  ticks.foldl (fun s tk => (global_monitor_step cfg s tk).1) t

/-- The LOT_SIZE filter of a symbol as read by app.round_quantity. -/
structure LotFilter where
  stepSize : ℚ
  minQty : ℚ
deriving DecidableEq

/-- Embeds app.round_quantity (app.py lines 82-96). When the symbol info
lookup fails the quantity is only rounded to 3 digits; otherwise it is
floored to the step size (the division error on a zero step falls back to
an 8-digit rounding), lifted to the minimum quantity, and rounded to 8
digits. -/
def round_quantity (info : Option LotFilter) (qty : ℚ) : ℚ :=
  match info with
  | none => pyRoundDigits qty 3
  | some f =>
    let q := if f.stepSize = 0 then pyRoundDigits qty 8
      else (⌊qty / f.stepSize⌋ : ℚ) * f.stepSize
    pyRoundDigits (if q < f.minQty then f.minQty else q) 8

/-- Embeds app.calculate_quantity (app.py lines 116-126): notional times
leverage over the live price, quantized by round_quantity; any failure
(price unavailable, division by a zero price) returns the hardcoded
fallback 0.001. -/
def calculate_quantity (cfg : Config) (info : Option LotFilter) (price : Option ℚ) : ℚ :=
  match price with
  | none => 1/1000
  | some p =>
    if p = 0 then 1/1000
    else round_quantity info (cfg.TRADE_AMOUNT * cfg.LEVERAGE / p)

/-- Result status of app.open_position. -/
inductive OpenStatus
  | maxTradesReached
  | orderPlaced
  | orderFailed
deriving DecidableEq

/-- Telegram messages emitted by app.open_position. -/
inductive OEvent
  | entryAlert (price : ℚ)
  | orderCreateFailed
deriving DecidableEq

/-- Observable outcome of one app.open_position call for a symbol: the
registry entry for the symbol afterwards, the returned status, the telegram
notifications sent, and whether an order was submitted to the exchange. -/
structure OpenOutcome where
  registry : Option AppTrade
  status : OpenStatus
  notifications : List OEvent
  order_submitted : Bool
deriving DecidableEq

/-- The provisional trade dict written by app.open_position (app.py lines
145-170), restricted to the fields the embedding carries. -/
def new_trade (cfg : Config) (side : Side) (limit_price qty : ℚ) : AppTrade :=
  { side := side, entry_price := limit_price, quantity := qty, loss_bars := 0,
    forced_exit := false, closed := false,
    dyn := { active := false, notified := false,
             activation_pct := cfg.TRAILING_ACTIVATION_PCT,
             peak := some limit_price, trough := some limit_price,
             stop_price := none, peak_pnl := none, trough_pnl := none } }

/-- Embeds app.open_position (app.py lines 129-193). The exchange-reported
count of open positions, the symbol's current registry entry and the
exchange's acceptance of the limit order are parameters. A count at or
above MAX_ACTIVE_TRADES returns early (console print only, no telegram, no
order, registry untouched); otherwise the provisional trade is stored
unless a non-closed one exists, the entry alert is sent, and the limit
order is submitted. -/
def open_position (cfg : Config) (active_count : ℕ) (existing : Option AppTrade)
    (side : Side) (limit_price qty : ℚ) (order_accepted : Bool) : OpenOutcome :=
  if cfg.MAX_ACTIVE_TRADES ≤ active_count then
    { registry := existing, status := OpenStatus.maxTradesReached,
      notifications := [], order_submitted := false }
  else
    let registry := match existing with
      | none => some (new_trade cfg side limit_price qty)
      | some tr => if tr.closed then some (new_trade cfg side limit_price qty) else existing
    if order_accepted then
      { registry := registry, status := OpenStatus.orderPlaced,
        notifications := [OEvent.entryAlert limit_price], order_submitted := true }
    else
      { registry := registry, status := OpenStatus.orderFailed,
        notifications := [OEvent.entryAlert limit_price, OEvent.orderCreateFailed],
        order_submitted := true }

/-- Result status of a close request. -/
inductive CloseStatus
  | noPosition
  | orderPlaced
  | orderFailed
deriving DecidableEq

/-- Telegram messages emitted by the close paths. -/
inductive CEvent
  | noPositionAlert
  | closeFailedAlert
deriving DecidableEq

/-- Opposite side used for a market close. -/
def opposite : Side → Side
  | Side.BUY => Side.SELL
  | Side.SELL => Side.BUY

/-- Observable outcome of a close request: status, telegram notifications,
whether a market order was submitted, and with what side and quantity. -/
structure CloseOutcome where
  status : CloseStatus
  notifications : List CEvent
  order_submitted : Bool
  close_side : Option Side
  close_qty : Option ℚ
deriving DecidableEq

/-- Embeds app.execute_market_exit (app.py lines 244-275). The
exchange-reported position amount for the symbol is the position_amt
argument (none when the position query returns nothing). A missing or
zero-sized position sends the no-position telegram and returns without an
order; otherwise the rounded absolute amount is market-ordered on the
opposite side. -/
def execute_market_exit (info : Option LotFilter) (position_amt : Option ℚ)
    (side : Side) (order_accepted : Bool) : CloseOutcome :=
  match position_amt with
  | none => { status := CloseStatus.noPosition, notifications := [CEvent.noPositionAlert],
              order_submitted := false, close_side := none, close_qty := none }
  | some amt =>
    if |amt| = 0 then
      { status := CloseStatus.noPosition, notifications := [CEvent.noPositionAlert],
        order_submitted := false, close_side := none, close_qty := none }
    else
      let qty := round_quantity info |amt|
      if order_accepted then
        { status := CloseStatus.orderPlaced, notifications := [],
          order_submitted := true, close_side := some (opposite side), close_qty := some qty }
      else
        { status := CloseStatus.orderFailed, notifications := [CEvent.closeFailedAlert],
          order_submitted := true, close_side := some (opposite side), close_qty := some qty }

/-- Embeds trade_notifier.close_trade_on_binance (trade_notifier.py lines
123-137). get_position_info returns none both when the query fails and when
the reported amount is zero; that path only prints under DEBUG and returns
the no_position status without any telegram. Errors from the signed post
are likewise only printed. -/
def close_trade_on_binance (position_amt : Option ℚ) (side : Side)
    (order_accepted : Bool) : CloseOutcome :=
  match position_amt with
  | none => { status := CloseStatus.noPosition, notifications := [],
              order_submitted := false, close_side := none, close_qty := none }
  | some amt =>
    let qty := pyRoundDigits |amt| 8
    if order_accepted then
      { status := CloseStatus.orderPlaced, notifications := [],
        order_submitted := true, close_side := some (opposite side), close_qty := some qty }
    else
      { status := CloseStatus.orderFailed, notifications := [],
        order_submitted := true, close_side := some (opposite side), close_qty := some qty }

/-- State of the consecutive-loss monitor for one trade. -/
structure LossState where
  loss_bars : ℕ
  forced_exit : Bool
  closed : Bool
deriving DecidableEq

/-- Events of the consecutive-loss monitor. -/
inductive LEvent
  | forceClose
  | recovered
  | closeTrigger
deriving DecidableEq

/-- Modelled from the spec: the consecutive-loss force-close monitor of
section 4.4 is missing from src/ in this revision — app.py only initializes
the loss_bars and forced_exit fields (app.py lines 162-165), and config.py
declares LOSS_BARS_LIMIT and the get_live_pnl_for_monitor helper "for the
2-bar loss monitor" (config.py lines 37-38 and 104-123) that nothing calls.
Following the spec words: each tick with live PnL percent below zero
increments the counter and, once it reaches the bar limit, marks forcedExit,
notifies with reason FORCE_CLOSE and triggers Close; any tick at or above
zero resets the counter to zero, emitting a recovery notification when it
was nonzero. forcedExit is idempotent, so a trade already forced skips. -/
def loss_monitor_step (limit : ℕ) (s : LossState) (pnl : ℚ) : LossState × List LEvent :=
  if s.closed ∨ s.forced_exit then (s, []) else
  if pnl < 0 then
    if limit ≤ s.loss_bars + 1 then
      ({s with loss_bars := s.loss_bars + 1, forced_exit := true, closed := true},
       [LEvent.forceClose, LEvent.closeTrigger])
    else ({s with loss_bars := s.loss_bars + 1}, [])
  else
    ({s with loss_bars := 0}, if s.loss_bars ≠ 0 then [LEvent.recovered] else [])

/-- The dynamic-offset formula exactly as the specification states it
(section 4.3 step 5): linear interpolation between the low and high offsets
over the profit domain from the activation threshold to 10 percent, clamped
at both ends. Refinement target compared against tn_offset and
app_dynamic_pct. -/
def spec_offset_formula (cfg : Config) (p : ℚ) : ℚ :=
  cfg.TSI_LOW_PROFIT_OFFSET_PCT +
  (cfg.TSI_HIGH_PROFIT_OFFSET_PCT - cfg.TSI_LOW_PROFIT_OFFSET_PCT) *
  (min (max ((p - cfg.TSI_PRIMARY_TRIGGER_PCT) / (10 - cfg.TSI_PRIMARY_TRIGGER_PCT)) 0) 1)

/-- A concrete configuration with the config.py defaults (leverage 20,
stop-loss 2 percent, bar limit 2, max trades 5, notional 50) and trailing
parameters: activation and primary trigger 0.5 percent, low offset 0.1
percent, high offset 0.3 percent, distance 0.5 percent. -/
def cfg0 : Config :=
  { LEVERAGE := 20, STOP_LOSS_PCT := 2, LOSS_BARS_LIMIT := 2,
    MAX_ACTIVE_TRADES := 5, TRAILING_ACTIVATION_PCT := 1/2,
    TRAILING_DISTANCE_PCT := 1/2, TSI_PRIMARY_TRIGGER_PCT := 1/2,
    TSI_LOW_PROFIT_OFFSET_PCT := 1/10, TSI_HIGH_PROFIT_OFFSET_PCT := 3/10,
    TRADE_AMOUNT := 50 }

/-- A fresh notifier trade: BUY from entry 100, trailing not yet active. -/
def nt0 : NotifierTrade :=
  { side := Side.BUY, entry_price := 100, trail_active := false,
    stop_price := none, dynamic_offset := none, closed := false }

/-- A concrete configuration for the app-side offset comparison: activation
and primary trigger 1 percent, low offset 2 percent, high offset 4 percent
(values at or above 1 so the percent normalizer leaves them unchanged). -/
def cfg5 : Config :=
  { LEVERAGE := 20, STOP_LOSS_PCT := 2, LOSS_BARS_LIMIT := 2,
    MAX_ACTIVE_TRADES := 5, TRAILING_ACTIVATION_PCT := 1,
    TRAILING_DISTANCE_PCT := 1, TSI_PRIMARY_TRIGGER_PCT := 1,
    TSI_LOW_PROFIT_OFFSET_PCT := 2, TSI_HIGH_PROFIT_OFFSET_PCT := 4,
    TRADE_AMOUNT := 50 }

/-- A concrete open app-side trade: BUY from entry 100, quantity 1, peak and
trough seeded at the fill price, trailing not yet active. -/
def t_open : AppTrade :=
  { side := Side.BUY, entry_price := 100, quantity := 1, loss_bars := 0,
    forced_exit := false, closed := false,
    dyn := { active := false, notified := false, activation_pct := 1/2,
             peak := some 100, trough := some 100, stop_price := none,
             peak_pnl := none, trough_pnl := none } }

/-- The same open trade after trailing activated with a stored stop of 100. -/
def t_stop : AppTrade :=
  { side := Side.BUY, entry_price := 100, quantity := 1, loss_bars := 0,
    forced_exit := false, closed := false,
    dyn := { active := true, notified := true, activation_pct := 1/2,
             peak := some 100, trough := some 100, stop_price := some 100,
             peak_pnl := some 1, trough_pnl := some 1 } }

section RoundingLemmas

theorem pyRound_bounds (x : ℚ) :
    x - 1/2 ≤ (pyRound x : ℚ) ∧ (pyRound x : ℚ) ≤ x + 1/2 := by
  have h0 : (⌊x⌋ : ℚ) ≤ x := Int.floor_le x
  have h1 : x < (⌊x⌋ : ℚ) + 1 := Int.lt_floor_add_one x
  unfold pyRound
  split_ifs with ha hb hc
  · exact ⟨by linarith, by linarith⟩
  · exact ⟨by push_cast; linarith, by push_cast; linarith⟩
  · exact ⟨by linarith, by linarith⟩
  · exact ⟨by push_cast; linarith, by push_cast; linarith⟩

theorem pyRound_intCast (m : ℤ) : pyRound (m : ℚ) = m := by
  unfold pyRound
  rw [Int.floor_intCast]
  simp

theorem pyRoundDigits_eq_self {x : ℚ} {n : ℕ} (h : ∃ m : ℤ, x * 10 ^ n = m) :
    pyRoundDigits x n = x := by
  obtain ⟨m, hm⟩ := h
  have hpow : ((10 : ℚ) ^ n) ≠ 0 := by positivity
  unfold pyRoundDigits
  rw [hm, pyRound_intCast, ← hm, mul_div_assoc, div_self hpow, mul_one]

theorem pyRoundDigits_bounds (x : ℚ) (n : ℕ) :
    x - 1 / (2 * 10 ^ n) ≤ pyRoundDigits x n ∧
    pyRoundDigits x n ≤ x + 1 / (2 * 10 ^ n) := by
  have hpow : (0 : ℚ) < 10 ^ n := by positivity
  obtain ⟨hl, hr⟩ := pyRound_bounds (x * 10 ^ n)
  unfold pyRoundDigits
  constructor
  · rw [le_div_iff₀ hpow]
    have : (x - 1 / (2 * 10 ^ n)) * 10 ^ n = x * 10 ^ n - 1/2 := by
      field_simp; ring
    linarith [this]
  · rw [div_le_iff₀ hpow]
    have : (x + 1 / (2 * 10 ^ n)) * 10 ^ n = x * 10 ^ n + 1/2 := by
      field_simp; ring
    linarith [this]

theorem round_to_tick_bounds {tick : ℚ} (value : ℚ) (htick : 0 < tick) :
    value - (tick / 2 + 1 / 200000000) ≤ round_to_tick tick value ∧
    round_to_tick tick value ≤ value + (tick / 2 + 1 / 200000000) := by
  have hnot : ¬ tick ≤ 0 := not_le.mpr htick
  unfold round_to_tick
  rw [if_neg hnot]
  obtain ⟨hl, hr⟩ := pyRound_bounds (value / tick)
  have hml : value - tick / 2 ≤ (pyRound (value / tick) : ℚ) * tick := by
    have := mul_le_mul_of_nonneg_right hl (le_of_lt htick)
    have hdiv : value / tick * tick = value := div_mul_cancel₀ value (ne_of_gt htick)
    nlinarith [this]
  have hmr : (pyRound (value / tick) : ℚ) * tick ≤ value + tick / 2 := by
    have := mul_le_mul_of_nonneg_right hr (le_of_lt htick)
    have hdiv : value / tick * tick = value := div_mul_cancel₀ value (ne_of_gt htick)
    nlinarith [this]
  obtain ⟨hdl, hdr⟩ := pyRoundDigits_bounds ((pyRound (value / tick) : ℚ) * tick) 8
  have h8 : (1 : ℚ) / (2 * 10 ^ 8) = 1 / 200000000 := by norm_num
  constructor <;> [linarith [h8 ▸ hdl]; linarith [h8 ▸ hdr]]

end RoundingLemmas

section MonitorLemmas

@[simp] theorem activation_block_stop (pnl : ℚ) (d : AppDyn) :
    (activation_block pnl d).1.stop_price = d.stop_price := by
  unfold activation_block
  dsimp only
  split
  · split <;> rfl
  · rfl

@[simp] theorem activation_block_peak (pnl : ℚ) (d : AppDyn) :
    (activation_block pnl d).1.peak = d.peak := by
  unfold activation_block
  dsimp only
  split
  · split <;> rfl
  · rfl

@[simp] theorem activation_block_trough (pnl : ℚ) (d : AppDyn) :
    (activation_block pnl d).1.trough = d.trough := by
  unfold activation_block
  dsimp only
  split
  · split <;> rfl
  · rfl

@[simp] theorem pnl_extrema_block_stop (side : Side) (pnl : ℚ) (d : AppDyn) :
    (pnl_extrema_block side pnl d).stop_price = d.stop_price := by
  cases side <;> rfl

@[simp] theorem pnl_extrema_block_peak (side : Side) (pnl : ℚ) (d : AppDyn) :
    (pnl_extrema_block side pnl d).peak = d.peak := by
  cases side <;> rfl

@[simp] theorem pnl_extrema_block_trough (side : Side) (pnl : ℚ) (d : AppDyn) :
    (pnl_extrema_block side pnl d).trough = d.trough := by
  cases side <;> rfl

@[simp] theorem peak_block_stop (side : Side) (entry current : ℚ) (d : AppDyn) :
    (peak_block side entry current d).1.stop_price = d.stop_price := by
  cases side <;> rfl

theorem peak_block_peak_buy (entry current : ℚ) (d : AppDyn) :
    (peak_block Side.BUY entry current d).1.peak =
      some (if d.peak.getD entry < current then current else d.peak.getD entry) := rfl

theorem peak_block_trough_sell (entry current : ℚ) (d : AppDyn) :
    (peak_block Side.SELL entry current d).1.trough =
      some (if current < d.trough.getD entry then current else d.trough.getD entry) := rfl

theorem tighten_stop_some (side : Side) (s cand : ℚ) :
    ∃ s2, tighten_stop side (some s) cand = some s2 ∧
      (side = Side.BUY → s ≤ s2) ∧ (side = Side.SELL → s2 ≤ s) := by
  cases side
  · dsimp only [tighten_stop]
    split_ifs with h
    · exact ⟨cand, rfl, fun _ => le_of_lt h, fun h2 => h2.elim⟩
    · exact ⟨s, rfl, fun _ => le_rfl, fun h2 => h2.elim⟩
  · dsimp only [tighten_stop]
    split_ifs with h
    · exact ⟨cand, rfl, fun h2 => h2.elim, fun _ => le_of_lt h⟩
    · exact ⟨s, rfl, fun h2 => h2.elim, fun _ => le_rfl⟩

theorem gms_side (cfg : Config) (t : AppTrade) (tk : Tick) :
    ((global_monitor_step cfg t tk).1).side = t.side := by
  unfold global_monitor_step
  dsimp only
  split
  · rfl
  split
  · rfl
  split
  · rfl
  split
  · rfl
  split
  · rfl
  split
  · rfl
  split <;> split <;> rfl

theorem gms_stop_tighten (cfg : Config) (t : AppTrade) (tk : Tick) {s : ℚ}
    (hs : t.dyn.stop_price = some s) :
    ∃ s2, ((global_monitor_step cfg t tk).1).dyn.stop_price = some s2 ∧
      (t.side = Side.BUY → s ≤ s2) ∧ (t.side = Side.SELL → s2 ≤ s) := by
  unfold global_monitor_step
  dsimp only
  split
  · exact ⟨s, hs, fun _ => le_rfl, fun _ => le_rfl⟩
  split
  · exact ⟨s, hs, fun _ => le_rfl, fun _ => le_rfl⟩
  split
  · exact ⟨s, hs, fun _ => le_rfl, fun _ => le_rfl⟩
  split
  · refine ⟨s, ?_, fun _ => le_rfl, fun _ => le_rfl⟩
    simp [hs]
  split
  · refine ⟨s, ?_, fun _ => le_rfl, fun _ => le_rfl⟩
    simp [hs]
  split
  · simp only [activation_block_stop, pnl_extrema_block_stop, peak_block_stop, hs]
    exact tighten_stop_some t.side s _
  split <;> split <;>
    (simp only [activation_block_stop, pnl_extrema_block_stop, peak_block_stop, hs]
     exact tighten_stop_some t.side s _)

theorem gms_peak_buy (cfg : Config) (t : AppTrade) (tk : Tick)
    (hside : t.side = Side.BUY) {p : ℚ} (hp : t.dyn.peak = some p) :
    ∃ p2, ((global_monitor_step cfg t tk).1).dyn.peak = some p2 ∧ p ≤ p2 := by
  have hle : p ≤ (if p < tk.current_price then tk.current_price else p) := by
    split_ifs with h
    · exact le_of_lt h
    · exact le_rfl
  unfold global_monitor_step
  simp only [hside]
  try dsimp only
  have hpk : (peak_block Side.BUY t.entry_price tk.current_price
      (pnl_extrema_block Side.BUY (tk.pnl.getD 0)
        (activation_block (tk.pnl.getD 0) t.dyn).1)).1.peak =
      some (if p < tk.current_price then tk.current_price else p) := by
    rw [peak_block_peak_buy]
    simp [hp]
  split
  · exact ⟨p, hp, le_rfl⟩
  split
  · exact ⟨p, hp, le_rfl⟩
  split
  · exact ⟨p, hp, le_rfl⟩
  split
  · refine ⟨p, ?_, le_rfl⟩
    simp [hp]
  split
  · exact ⟨_, hpk, hle⟩
  split
  · exact ⟨_, hpk, hle⟩
  split <;> exact ⟨_, hpk, hle⟩

theorem gms_trough_sell (cfg : Config) (t : AppTrade) (tk : Tick)
    (hside : t.side = Side.SELL) {q : ℚ} (hq : t.dyn.trough = some q) :
    ∃ q2, ((global_monitor_step cfg t tk).1).dyn.trough = some q2 ∧ q2 ≤ q := by
  have hle : (if tk.current_price < q then tk.current_price else q) ≤ q := by
    split_ifs with h
    · exact le_of_lt h
    · exact le_rfl
  unfold global_monitor_step
  simp only [hside]
  try dsimp only
  have htr : (peak_block Side.SELL t.entry_price tk.current_price
      (pnl_extrema_block Side.SELL (tk.pnl.getD 0)
        (activation_block (tk.pnl.getD 0) t.dyn).1)).1.trough =
      some (if tk.current_price < q then tk.current_price else q) := by
    rw [peak_block_trough_sell]
    simp [hq]
  split
  · exact ⟨q, hq, le_rfl⟩
  split
  · exact ⟨q, hq, le_rfl⟩
  split
  · exact ⟨q, hq, le_rfl⟩
  split
  · refine ⟨q, ?_, le_rfl⟩
    simp [hq]
  split
  · exact ⟨_, htr, hle⟩
  split
  · exact ⟨_, htr, hle⟩
  split <;> exact ⟨_, htr, hle⟩

end MonitorLemmas

section Claims

/-- C1, counterexample: the claim fails on trade_notifier.check_trailing,
which stores each newly computed candidate unconditionally. For a BUY trade
from entry 100 with tick size 0.01, a tick at mark 101 stores stop 100.70;
the next tick at mark 100.5 (PnL still above the trigger) stores 100.20,
strictly below the previous stop. -/
theorem c1_counterexample :
    (check_trailing_step cfg0 (1/100) nt0 101 (some 20)).1.side = Side.BUY ∧
    (check_trailing_step cfg0 (1/100) nt0 101 (some 20)).1.stop_price = some (1007/10) ∧
    (check_trailing_step cfg0 (1/100)
        (check_trailing_step cfg0 (1/100) nt0 101 (some 20)).1
        (201/2) (some 10)).1.stop_price = some (501/5) ∧
    ((501:ℚ)/5 < 1007/10) := by
  refine ⟨?_, ?_, ?_, by norm_num⟩ <;>
    norm_num [check_trailing_step, compute_ts_dynamic, tn_offset, tn_stop_before_round,
      round_to_tick, pyRoundDigits, pyRound, cfg0, nt0]

/-- C1 (amended): in the global trailing monitor of app.py the claim holds —
for every open trade and every tick sequence, once the stored stop price is
set, every later iteration leaves it set and never loosens it: for a BUY
trade it never decreases and for a SELL trade it never increases. The
legacy per-symbol monitor of trade_notifier.check_trailing instead
overwrites the stop with each new candidate and can loosen it. -/
theorem c1_stop_price_only_tightens (cfg : Config) (t : AppTrade)
    (ticks : List Tick) (s : ℚ) (hs : t.dyn.stop_price = some s) :
    ∃ s2, (global_monitor_run cfg t ticks).dyn.stop_price = some s2 ∧
      (t.side = Side.BUY → s ≤ s2) ∧ (t.side = Side.SELL → s2 ≤ s) := by
  induction ticks generalizing t s with
  | nil => exact ⟨s, hs, fun _ => le_rfl, fun _ => le_rfl⟩
  | cons tk rest ih =>
    obtain ⟨s1, h1, hb1, hl1⟩ := gms_stop_tighten cfg t tk hs
    obtain ⟨s2, h2, hb2, hl2⟩ := ih ((global_monitor_step cfg t tk).1) s1 h1
    have hside := gms_side cfg t tk
    refine ⟨s2, ?_, ?_, ?_⟩
    · simpa [global_monitor_run] using h2
    · intro hB
      exact le_trans (hb1 hB) (hb2 (by rw [hside, hB]))
    · intro hS
      exact le_trans (hl2 (by rw [hside, hS])) (hl1 hS)

/-- C1, witness: the amended theorem applied to a concrete BUY trade with
stored stop 100 over one tick. -/
theorem c1_stop_price_only_tightens_witness :
    ∃ s2, (global_monitor_run cfg0 t_stop [⟨105, some 5⟩]).dyn.stop_price = some s2 ∧
      (t_stop.side = Side.BUY → 100 ≤ s2) ∧ (t_stop.side = Side.SELL → s2 ≤ 100) :=
  c1_stop_price_only_tightens cfg0 t_stop [⟨105, some 5⟩] 100 rfl

/-- C6: for every sequence of monitoring ticks of the global trailing
monitor, once seeded the recorded peak price of a LONG (BUY) trade is
non-decreasing and the recorded trough price of a SHORT (SELL) trade is
non-increasing. -/
theorem c6_peak_trough_monotone (cfg : Config) (t : AppTrade) (ticks : List Tick) :
    (∀ p, t.side = Side.BUY → t.dyn.peak = some p →
      ∃ p2, (global_monitor_run cfg t ticks).dyn.peak = some p2 ∧ p ≤ p2) ∧
    (∀ q, t.side = Side.SELL → t.dyn.trough = some q →
      ∃ q2, (global_monitor_run cfg t ticks).dyn.trough = some q2 ∧ q2 ≤ q) := by
  induction ticks generalizing t with
  | nil => exact ⟨fun p _ hp => ⟨p, hp, le_rfl⟩, fun q _ hq => ⟨q, hq, le_rfl⟩⟩
  | cons tk rest ih =>
    have hside := gms_side cfg t tk
    constructor
    · intro p hB hp
      obtain ⟨p1, h1, hle1⟩ := gms_peak_buy cfg t tk hB hp
      obtain ⟨p2, h2, hle2⟩ :=
        (ih ((global_monitor_step cfg t tk).1)).1 p1 (by rw [hside, hB]) h1
      exact ⟨p2, by simpa [global_monitor_run] using h2, le_trans hle1 hle2⟩
    · intro q hS hq
      obtain ⟨q1, h1, hle1⟩ := gms_trough_sell cfg t tk hS hq
      obtain ⟨q2, h2, hle2⟩ :=
        (ih ((global_monitor_step cfg t tk).1)).2 q1 (by rw [hside, hS]) h1
      exact ⟨q2, by simpa [global_monitor_run] using h2, le_trans hle2 hle1⟩

/-- C6, witness: the theorem applied to a concrete BUY trade whose peak is
seeded at 100, over one tick at price 105. -/
theorem c6_peak_trough_monotone_witness :
    ∃ p2, (global_monitor_run cfg0 t_open [⟨105, some 5⟩]).dyn.peak = some p2 ∧
      100 ≤ p2 :=
  (c6_peak_trough_monotone cfg0 t_open [⟨105, some 5⟩]).1 100 rfl rfl

/-- C2, counterexample: neither stop-update path applies hysteresis to the
update. In check_trailing with tick size 0.01 (code hysteresis
max(2 ticks, 1 tick) = 0.02), a BUY trade stores stop 100.70 at mark 101;
the next tick at mark 100.99 computes candidate 100.69, differing from the
previous stop by 0.01 < 0.02, yet the stored stop changes to 100.69. -/
theorem c2_counterexample :
    (check_trailing_step cfg0 (1/100) nt0 101 (some 20)).1.stop_price = some (1007/10) ∧
    (check_trailing_step cfg0 (1/100)
        (check_trailing_step cfg0 (1/100) nt0 101 (some 20)).1
        (10099/100) (some 18)).1.stop_price = some (10069/100) ∧
    |(10069:ℚ)/100 - 1007/10| < max (2 * (1/100)) (1/100) ∧
    ((10069:ℚ)/100 ≠ 1007/10) := by
  have habs : |(10069:ℚ)/100 - 1007/10| = 1/100 := by
    rw [show (10069:ℚ)/100 - 1007/10 = -(1/100) by norm_num, abs_neg,
      abs_of_pos (by norm_num : (0:ℚ) < 1/100)]
  refine ⟨?_, ?_, by rw [habs]; norm_num, by norm_num⟩ <;>
    norm_num [check_trailing_step, compute_ts_dynamic, tn_offset, tn_stop_before_round,
      round_to_tick, pyRoundDigits, pyRound, cfg0, nt0]

/-- C2 (amended): in trade_notifier.check_trailing the hysteresis threshold
max(2 ticks, 1 tick) gates the exit trigger rather than the stop update: a
trailing-stop-hit close fires only when the mark price has crossed the
freshly stored stop by at least that threshold (BUY: mark at or below
stop minus the threshold; SELL: mark at or above stop plus the threshold).
Stop updates themselves are applied unconditionally. -/
theorem c2_hysteresis_gates_exit (cfg : Config) (tick : ℚ) (t : NotifierTrade)
    (mark : ℚ) (pnl : Option ℚ) (stop offset : ℚ)
    (h : NEvent.stopHit stop offset ∈ (check_trailing_step cfg tick t mark pnl).2) :
    (t.side = Side.BUY → mark ≤ stop - max (2 * tick) tick) ∧
    (t.side = Side.SELL → stop + max (2 * tick) tick ≤ mark) := by
  unfold check_trailing_step at h
  repeat' split at h
  all_goals try simp at h
  all_goals (split at h; · simp at h)
  all_goals repeat' split at h
  all_goals try simp at h
  all_goals simp_all

/-- C2, witness: the amended theorem applied to a concrete BUY step in which
the stop-hit event fires (entry 100, mark 99, the breakeven clamp puts the
stop at 100, and 99 is below 100 minus the 0.02 hysteresis). -/
theorem c2_hysteresis_gates_exit_witness :
    NEvent.stopHit 100 (3/10) ∈ (check_trailing_step cfg0 (1/100) nt0 99 (some 50)).2 ∧
    ((nt0.side = Side.BUY → (99:ℚ) ≤ 100 - max (2 * (1/100)) (1/100)) ∧
     (nt0.side = Side.SELL → (100:ℚ) + max (2 * (1/100)) (1/100) ≤ 99)) :=
  ⟨by norm_num [check_trailing_step, compute_ts_dynamic, tn_offset, tn_stop_before_round,
      round_to_tick, pyRoundDigits, pyRound, cfg0, nt0],
   c2_hysteresis_gates_exit cfg0 (1/100) nt0 99 (some 50) 100 (3/10)
     (by norm_num [check_trailing_step, compute_ts_dynamic, tn_offset, tn_stop_before_round,
       round_to_tick, pyRoundDigits, pyRound, cfg0, nt0])⟩

/-- C3 (spec-modelled): on every tick of an open, not yet forced trade, a
negative live PnL percent increments the consecutive-loss counter and, once
the counter reaches the configured bar limit, the trade is marked
forcedExit and closed with reason FORCE_CLOSE; a nonnegative PnL percent
resets the counter to zero and, when it was nonzero, emits the recovery
notification. -/
theorem c3_consecutive_loss_policy (limit : ℕ) (s : LossState) (pnl : ℚ)
    (hopen : s.closed = false) (hfe : s.forced_exit = false) :
    (pnl < 0 →
      (loss_monitor_step limit s pnl).1.loss_bars = s.loss_bars + 1 ∧
      (limit ≤ s.loss_bars + 1 →
        (loss_monitor_step limit s pnl).1.forced_exit = true ∧
        (loss_monitor_step limit s pnl).2 = [LEvent.forceClose, LEvent.closeTrigger])) ∧
    (0 ≤ pnl →
      (loss_monitor_step limit s pnl).1.loss_bars = 0 ∧
      (s.loss_bars ≠ 0 → LEvent.recovered ∈ (loss_monitor_step limit s pnl).2)) := by
  unfold loss_monitor_step
  rw [if_neg (by simp [hopen, hfe])]
  constructor
  · intro hneg
    rw [if_pos hneg]
    by_cases hlim : limit ≤ s.loss_bars + 1
    · rw [if_pos hlim]
      exact ⟨rfl, fun _ => ⟨rfl, rfl⟩⟩
    · rw [if_neg hlim]
      exact ⟨rfl, fun h2 => absurd h2 hlim⟩
  · intro hpos
    rw [if_neg (not_lt.mpr hpos)]
    refine ⟨rfl, fun hnz => ?_⟩
    simp [hnz]

/-- C3, witness: with bar limit 2, a trade that has one loss bar and sees
another negative tick is force-closed; the same state on a nonnegative tick
resets and recovers. -/
theorem c3_consecutive_loss_policy_witness :
    (((-1:ℚ) < 0 →
      (loss_monitor_step 2 ⟨1, false, false⟩ (-1)).1.loss_bars = 1 + 1 ∧
      (2 ≤ 1 + 1 →
        (loss_monitor_step 2 ⟨1, false, false⟩ (-1)).1.forced_exit = true ∧
        (loss_monitor_step 2 ⟨1, false, false⟩ (-1)).2 =
          [LEvent.forceClose, LEvent.closeTrigger])) ∧
     ((0:ℚ) ≤ -1 →
      (loss_monitor_step 2 ⟨1, false, false⟩ (-1)).1.loss_bars = 0 ∧
      (1 ≠ 0 → LEvent.recovered ∈ (loss_monitor_step 2 ⟨1, false, false⟩ (-1)).2))) ∧
    (((2:ℚ) < 0 →
      (loss_monitor_step 2 ⟨1, false, false⟩ 2).1.loss_bars = 1 + 1 ∧
      (2 ≤ 1 + 1 →
        (loss_monitor_step 2 ⟨1, false, false⟩ 2).1.forced_exit = true ∧
        (loss_monitor_step 2 ⟨1, false, false⟩ 2).2 =
          [LEvent.forceClose, LEvent.closeTrigger])) ∧
     ((0:ℚ) ≤ 2 →
      (loss_monitor_step 2 ⟨1, false, false⟩ 2).1.loss_bars = 0 ∧
      (1 ≠ 0 → LEvent.recovered ∈ (loss_monitor_step 2 ⟨1, false, false⟩ 2).2))) :=
  ⟨c3_consecutive_loss_policy 2 ⟨1, false, false⟩ (-1) rfl rfl,
   c3_consecutive_loss_policy 2 ⟨1, false, false⟩ 2 rfl rfl⟩

/-- C4: on a monitoring tick of an open trade, a live PnL percent at or
below minus stopLossPct times leverage with forcedExit unset makes the
global monitor set forcedExit, emit the STOP_LOSS exit notification at the
current price and trigger the market close, regardless of the trailing
state of the trade. -/
theorem c4_immediate_stop_loss (cfg : Config) (t : AppTrade) (tk : Tick) (p : ℚ)
    (hopen : t.closed = false) (hprice : 0 < tk.current_price)
    (hp : tk.pnl = some p) (hth : p ≤ -cfg.STOP_LOSS_PCT * cfg.LEVERAGE)
    (hfe : t.forced_exit = false) :
    (global_monitor_step cfg t tk).1.forced_exit = true ∧
    (global_monitor_step cfg t tk).1.closed = true ∧
    (global_monitor_step cfg t tk).2 =
      [GEvent.stopLossExit tk.current_price, GEvent.marketExitCall] := by
  unfold global_monitor_step
  rw [hopen, hp]
  dsimp only [Option.getD_some]
  rw [if_neg (by simp), if_neg (not_le.mpr hprice), if_pos ⟨hth, hfe⟩]
  exact ⟨rfl, rfl, rfl⟩

/-- C4, witness: with the default configuration (stop-loss 2 percent,
leverage 20, threshold minus 40 percent), a live PnL of minus 41 percent on
an open trade triggers the immediate stop-loss. -/
theorem c4_immediate_stop_loss_witness :
    t_open.closed = false ∧ ((-41:ℚ) ≤ -cfg0.STOP_LOSS_PCT * cfg0.LEVERAGE) ∧
    (global_monitor_step cfg0 t_open ⟨100, some (-41)⟩).1.forced_exit = true ∧
    (global_monitor_step cfg0 t_open ⟨100, some (-41)⟩).1.closed = true ∧
    (global_monitor_step cfg0 t_open ⟨100, some (-41)⟩).2 =
      [GEvent.stopLossExit 100, GEvent.marketExitCall] :=
  ⟨rfl, by norm_num [cfg0],
   c4_immediate_stop_loss cfg0 t_open ⟨100, some (-41)⟩ (-41) rfl (by norm_num) rfl
     (by norm_num [cfg0]) rfl⟩

/-- C5, counterexample: the claim fails on the app.py variant of the offset
computation. With low offset 2, high offset 4 and activation threshold 1, at
profit 20 percent the claimed formula caps the offset at the high offset 4,
but app.compute_ts_dynamic computes the uncapped slope value 116/19. -/
theorem c5_counterexample :
    app_profit_pct 100 120 Side.BUY = 20 ∧
    app_dynamic_pct cfg5 (to_percent 1) 20 = 116/19 ∧
    spec_offset_formula cfg5 20 = 4 ∧
    ((116:ℚ)/19 ≠ 4) := by
  refine ⟨?_, ?_, ?_, by norm_num⟩
  · show |(120 - 100 : ℚ) / 100| * 100 = 20
    rw [show ((120:ℚ) - 100)/100 = 1/5 by norm_num,
      abs_of_pos (by norm_num : (0:ℚ) < 1/5)]
    norm_num
  · rw [app_dynamic_pct, to_percent, to_percent, to_percent]
    rw [abs_of_pos (by norm_num [cfg5] : (0:ℚ) < cfg5.TSI_LOW_PROFIT_OFFSET_PCT)]
    norm_num [cfg5]
  · rw [spec_offset_formula]
    norm_num [cfg5]

/-- C5 (amended): the claimed clamped linear interpolation describes exactly
the notifier offset computation (trade_notifier.compute_ts_dynamic), with
lowerBound the TSI primary trigger: for every profit percentage the
notifier offset equals lowOffset plus (highOffset minus lowOffset) times
clamp((p minus lowerBound)/(10 minus lowerBound), 0, 1). The app.py variant
instead uses an uncapped slope formula and exceeds highOffset beyond 10
percent profit. -/
theorem c5_notifier_offset_eq_spec_formula (cfg : Config) (p : ℚ)
    (h : cfg.TSI_PRIMARY_TRIGGER_PCT < 10) :
    tn_offset cfg p = spec_offset_formula cfg p := by
  have hden : (0:ℚ) < 10 - cfg.TSI_PRIMARY_TRIGGER_PCT := by linarith
  unfold tn_offset spec_offset_formula
  split_ifs with h1 h2
  · have hr : (p - cfg.TSI_PRIMARY_TRIGGER_PCT) / (10 - cfg.TSI_PRIMARY_TRIGGER_PCT) ≤ 0 :=
      div_nonpos_iff.mpr (Or.inr ⟨by linarith, le_of_lt hden⟩)
    rw [max_eq_right hr, min_eq_left (by norm_num : (0:ℚ) ≤ 1)]
    ring
  · have hr : (1:ℚ) ≤ (p - cfg.TSI_PRIMARY_TRIGGER_PCT) / (10 - cfg.TSI_PRIMARY_TRIGGER_PCT) := by
      rw [le_div_iff₀ hden]
      linarith
    rw [max_eq_left (le_trans zero_le_one hr), min_eq_right hr]
    ring
  · have h1' : cfg.TSI_PRIMARY_TRIGGER_PCT < p := not_le.mp h1
    have h2' : p < 10 := not_le.mp h2
    have hr0 : (0:ℚ) ≤ (p - cfg.TSI_PRIMARY_TRIGGER_PCT) / (10 - cfg.TSI_PRIMARY_TRIGGER_PCT) :=
      div_nonneg (by linarith) (le_of_lt hden)
    have hr1 : (p - cfg.TSI_PRIMARY_TRIGGER_PCT) / (10 - cfg.TSI_PRIMARY_TRIGGER_PCT) ≤ 1 := by
      rw [div_le_one hden]
      linarith
    rw [max_eq_left hr0, min_eq_left hr1]
    ring

/-- C5, witness: the amended theorem applied to the default configuration at
profit 5 percent, where the trigger 0.5 is below 10. -/
theorem c5_notifier_offset_eq_spec_formula_witness :
    cfg0.TSI_PRIMARY_TRIGGER_PCT < 10 ∧
    tn_offset cfg0 5 = spec_offset_formula cfg0 5 :=
  ⟨by norm_num [cfg0],
   c5_notifier_offset_eq_spec_formula cfg0 5 (by norm_num [cfg0])⟩

/-- C7, counterexample: the claim fails in its notification part. At the
ceiling (5 active positions with MAX_ACTIVE_TRADES 5) open_position returns
the max-trades rejection, submits no order and leaves the registry
unchanged, but it emits no notification — the rejection is only printed to
the console, never sent through the notification channel. -/
theorem c7_counterexample :
    (open_position cfg0 5 none Side.BUY 100 1 true).status = OpenStatus.maxTradesReached ∧
    (open_position cfg0 5 none Side.BUY 100 1 true).notifications = [] ∧
    (open_position cfg0 5 none Side.BUY 100 1 true).order_submitted = false ∧
    (open_position cfg0 5 none Side.BUY 100 1 true).registry = none := by
  refine ⟨?_, ?_, ?_, ?_⟩ <;> rfl

/-- C7 (amended): whenever the exchange-reported count of open positions is
at or above the configured ceiling, open_position returns the
MaxActiveTradesExceeded rejection, submits no order and leaves the trade
registry unchanged — but emits no notification (console log only). -/
theorem c7_max_active_trades_rejection (cfg : Config) (active_count : ℕ)
    (existing : Option AppTrade) (side : Side) (limit_price qty : ℚ)
    (order_accepted : Bool) (h : cfg.MAX_ACTIVE_TRADES ≤ active_count) :
    open_position cfg active_count existing side limit_price qty order_accepted =
      { registry := existing, status := OpenStatus.maxTradesReached,
        notifications := [], order_submitted := false } := by
  unfold open_position
  rw [if_pos h]

/-- C7, witness: the amended theorem applied at the ceiling. -/
theorem c7_max_active_trades_rejection_witness :
    cfg0.MAX_ACTIVE_TRADES ≤ 7 ∧
    open_position cfg0 7 (some t_open) Side.SELL 100 1 true =
      { registry := some t_open, status := OpenStatus.maxTradesReached,
        notifications := [], order_submitted := false } :=
  ⟨by norm_num [cfg0],
   c7_max_active_trades_rejection cfg0 7 (some t_open) Side.SELL 100 1 true
     (by norm_num [cfg0])⟩

/-- C8, counterexample: the claim fails in its notification part for the
notifier close path. With no exchange position, close_trade_on_binance
returns the no_position status and submits no order, but emits no
notification (a DEBUG console print only). -/
theorem c8_counterexample :
    (close_trade_on_binance none Side.BUY true).status = CloseStatus.noPosition ∧
    (close_trade_on_binance none Side.BUY true).notifications = [] ∧
    (close_trade_on_binance none Side.BUY true).order_submitted = false := by
  refine ⟨?_, ?_, ?_⟩ <;> rfl

/-- C8 (amended): when the exchange reports no position or a zero position
size, app.execute_market_exit returns the no-position result, emits the
no-position notification and submits no close order; the notifier variant
close_trade_on_binance likewise returns no_position and submits no order,
but emits no notification. -/
theorem c8_close_no_position (info : Option LotFilter) (side : Side)
    (order_accepted : Bool) (amt : ℚ) (h : amt = 0) :
    execute_market_exit info none side order_accepted =
      { status := CloseStatus.noPosition, notifications := [CEvent.noPositionAlert],
        order_submitted := false, close_side := none, close_qty := none } ∧
    execute_market_exit info (some amt) side order_accepted =
      { status := CloseStatus.noPosition, notifications := [CEvent.noPositionAlert],
        order_submitted := false, close_side := none, close_qty := none } ∧
    close_trade_on_binance none side order_accepted =
      { status := CloseStatus.noPosition, notifications := [],
        order_submitted := false, close_side := none, close_qty := none } := by
  subst h
  refine ⟨rfl, ?_, rfl⟩
  simp [execute_market_exit]

/-- C8, witness: the amended theorem applied at a zero-size position. -/
theorem c8_close_no_position_witness :
    ((0:ℚ) = 0) ∧
    (execute_market_exit none none Side.BUY true =
      { status := CloseStatus.noPosition, notifications := [CEvent.noPositionAlert],
        order_submitted := false, close_side := none, close_qty := none } ∧
     execute_market_exit none (some 0) Side.BUY true =
      { status := CloseStatus.noPosition, notifications := [CEvent.noPositionAlert],
        order_submitted := false, close_side := none, close_qty := none } ∧
     close_trade_on_binance none Side.BUY true =
      { status := CloseStatus.noPosition, notifications := [],
        order_submitted := false, close_side := none, close_qty := none }) :=
  ⟨rfl, c8_close_no_position none Side.BUY true 0 rfl⟩

/-- C9, counterexample: the claim fails when the exchange minimum quantity
is not itself a multiple of the step size. With stepSize 0.007 and minQty
0.01, a raw quantity of 0.008 floors to 0.007, is bumped to the minimum
0.01, and 0.01 is not an integer multiple of 0.007. -/
theorem c9_counterexample :
    round_quantity (some ⟨7/1000, 1/100⟩) (1/125) = 1/100 ∧
    ¬ ∃ k : ℤ, (1/100 : ℚ) = (k : ℚ) * (7/1000) := by
  constructor
  · norm_num [round_quantity, pyRoundDigits, pyRound]
  · rintro ⟨k, hk⟩
    have h1 : (10 : ℚ) = 7 * (k : ℚ) := by linear_combination 1000 * hk
    have h2 : (10 : ℤ) = 7 * k := by exact_mod_cast h1
    omega

/-- C9 (amended): whenever the LOT_SIZE filter is available with a positive
step size that is exactly representable at 8 decimals and a minimum
quantity that is an integer multiple of the step size (as exchange filters
are), the quantity produced by round_quantity is at least the minimum order
size and an exact integer multiple of the step size. -/
theorem c9_round_quantity_spec (f : LotFilter) (qty : ℚ)
    (hstep : 0 < f.stepSize) (hrep : ∃ m : ℤ, f.stepSize * 10 ^ 8 = m)
    (hmin : ∃ k : ℤ, f.minQty = (k : ℚ) * f.stepSize) :
    f.minQty ≤ round_quantity (some f) qty ∧
    ∃ k : ℤ, round_quantity (some f) qty = (k : ℚ) * f.stepSize := by
  obtain ⟨m, hm⟩ := hrep
  obtain ⟨k0, hk0⟩ := hmin
  have hne : f.stepSize ≠ 0 := ne_of_gt hstep
  unfold round_quantity
  dsimp only
  rw [if_neg hne]
  by_cases hlt : (⌊qty / f.stepSize⌋ : ℚ) * f.stepSize < f.minQty
  · rw [if_pos hlt]
    have hid : pyRoundDigits f.minQty 8 = f.minQty := by
      refine pyRoundDigits_eq_self ⟨k0 * m, ?_⟩
      rw [hk0]
      push_cast
      rw [← hm]
      ring
    rw [hid]
    exact ⟨le_rfl, k0, hk0⟩
  · rw [if_neg hlt]
    have hid : pyRoundDigits ((⌊qty / f.stepSize⌋ : ℚ) * f.stepSize) 8 =
        (⌊qty / f.stepSize⌋ : ℚ) * f.stepSize := by
      refine pyRoundDigits_eq_self ⟨⌊qty / f.stepSize⌋ * m, ?_⟩
      push_cast
      rw [← hm]
      ring
    rw [hid]
    exact ⟨not_lt.mp hlt, ⌊qty / f.stepSize⌋, rfl⟩

/-- C9, witness: the amended theorem applied to a filter with step and
minimum both 0.001 and a raw quantity of 0.5. -/
theorem c9_round_quantity_spec_witness :
    (0 < (1/1000 : ℚ)) ∧
    ((1/1000 : ℚ) ≤ round_quantity (some ⟨1/1000, 1/1000⟩) (1/2) ∧
     ∃ k : ℤ, round_quantity (some ⟨1/1000, 1/1000⟩) (1/2) = (k : ℚ) * (1/1000)) :=
  ⟨by norm_num,
   c9_round_quantity_spec ⟨1/1000, 1/1000⟩ (1/2) (by norm_num)
     ⟨100000, by norm_num⟩ ⟨1, by norm_num⟩⟩

/-- C10: whenever the notifier trailing-stop computation returns a stop
price, the candidate was clamped to breakeven before tick rounding: for a
BUY trade the pre-rounding candidate is at least the entry price and the
returned stop is below entry by at most half a tick plus the 8-digit
rounding error; for a SELL trade symmetrically the candidate is at most the
entry price. The trailing stop therefore never locks in a loss relative to
entry beyond the final rounding. -/
theorem c10_breakeven_clamp (cfg : Config) (tick entry current : ℚ) (side : Side)
    (p stop offset : ℚ) (htick : 0 < tick)
    (h : compute_ts_dynamic cfg tick (some p) entry side current = some (stop, offset)) :
    (side = Side.BUY →
      entry ≤ tn_stop_before_round (tn_offset cfg |p|) entry current Side.BUY ∧
      stop = round_to_tick tick (tn_stop_before_round (tn_offset cfg |p|) entry current Side.BUY) ∧
      entry - (tick / 2 + 1 / 200000000) ≤ stop) ∧
    (side = Side.SELL →
      tn_stop_before_round (tn_offset cfg |p|) entry current Side.SELL ≤ entry ∧
      stop = round_to_tick tick (tn_stop_before_round (tn_offset cfg |p|) entry current Side.SELL) ∧
      stop ≤ entry + (tick / 2 + 1 / 200000000)) := by
  simp only [compute_ts_dynamic] at h
  split at h
  · exact absurd h (by simp)
  · rw [Option.some.injEq, Prod.mk.injEq] at h
    obtain ⟨hstop, hoff⟩ := h
    constructor
    · intro hB
      subst hB
      have hraw : entry ≤ tn_stop_before_round (tn_offset cfg |p|) entry current Side.BUY :=
        le_max_right _ _
      refine ⟨hraw, hstop.symm, ?_⟩
      have hb := (round_to_tick_bounds
        (tn_stop_before_round (tn_offset cfg |p|) entry current Side.BUY) htick).1
      rw [← hstop]
      linarith
    · intro hS
      subst hS
      have hraw : tn_stop_before_round (tn_offset cfg |p|) entry current Side.SELL ≤ entry :=
        min_le_right _ _
      refine ⟨hraw, hstop.symm, ?_⟩
      have hb := (round_to_tick_bounds
        (tn_stop_before_round (tn_offset cfg |p|) entry current Side.SELL) htick).2
      rw [← hstop]
      linarith

/-- C10, witness: the theorem applied to a BUY trade from entry 100 at mark
101 with tick size 0.01, where the computation returns the stop 100.70. -/
theorem c10_breakeven_clamp_witness :
    ((0:ℚ) < 1/100) ∧
    compute_ts_dynamic cfg0 (1/100) (some 20) 100 Side.BUY 101 = some (1007/10, 3/10) ∧
    ((Side.BUY = Side.BUY →
      (100:ℚ) ≤ tn_stop_before_round (tn_offset cfg0 |(20:ℚ)|) 100 101 Side.BUY ∧
      (1007/10 : ℚ) = round_to_tick (1/100)
        (tn_stop_before_round (tn_offset cfg0 |(20:ℚ)|) 100 101 Side.BUY) ∧
      (100:ℚ) - (1/100 / 2 + 1 / 200000000) ≤ 1007/10) ∧
     (Side.BUY = Side.SELL →
      tn_stop_before_round (tn_offset cfg0 |(20:ℚ)|) 100 101 Side.SELL ≤ 100 ∧
      (1007/10 : ℚ) = round_to_tick (1/100)
        (tn_stop_before_round (tn_offset cfg0 |(20:ℚ)|) 100 101 Side.SELL) ∧
      (1007/10 : ℚ) ≤ 100 + (1/100 / 2 + 1 / 200000000))) :=
  ⟨by norm_num,
   by norm_num [compute_ts_dynamic, tn_offset, tn_stop_before_round, round_to_tick,
     pyRoundDigits, pyRound, cfg0],
   c10_breakeven_clamp cfg0 (1/100) 100 101 Side.BUY 20 (1007/10) (3/10) (by norm_num)
     (by norm_num [compute_ts_dynamic, tn_offset, tn_stop_before_round, round_to_tick,
       pyRoundDigits, pyRound, cfg0])⟩

end Claims

end TVB
